import Mathlib

/-
Verification development for the image-generation service layer
(services/geminiService.ts) of the GeminiDesigner repository.

Strings are modelled as `List Char`.  Remote calls (the generative-model
endpoints) and JSON.parse are modelled as explicit oracle parameters, so
every entry point is a pure function of its inputs and of the oracle
responses.  JavaScript string truthiness is modelled by comparison with
the empty list; a JS value of -1 returned by indexOf or lastIndexOf is
modelled by `Option Nat` with `none` for -1.
-/

deriving instance DecidableEq for Except

namespace GDS

/-- The backtick character (0x60). -/
def btick : Char := Char.ofNat 96

/-- The opening-brace character (0x7b). -/
def lbraceChar : Char := Char.ofNat 123

/-- The closing-brace character (0x7d). -/
def rbraceChar : Char := Char.ofNat 125

/-- Whitespace as matched by the regex class and by String.prototype.trim
(restricted to the ASCII whitespace characters). -/
def isJsWs (c : Char) : Bool :=
  c == ' ' || c == '\t' || c == '\n' || c == '\r' || c == '\x0b' || c == '\x0c'

/-- Drop trailing whitespace. -/
def trimEndJs (s : List Char) : List Char :=
  (s.reverse.dropWhile isJsWs).reverse

/-- String.prototype.trim: drop leading and trailing whitespace. -/
def trimJs (s : List Char) : List Char :=
  trimEndJs (s.dropWhile isJsWs)

/-- Index of the first occurrence of `needle` as a contiguous substring of
`hay` (the JS String.prototype.indexOf / regex leftmost-match search). -/
def findSub (needle : List Char) : List Char → Option Nat
  | [] => if needle.isPrefixOf ([] : List Char) then some 0 else none
  | x :: t =>
    if needle.isPrefixOf (x :: t) then some 0
    else (findSub needle t).map (· + 1)

/-- Index of the last occurrence of character `c` in `s`
(String.prototype.lastIndexOf, with `none` for -1). -/
def lastIdxOf (c : Char) (s : List Char) : Option Nat :=
  match s.reverse.findIdx? (fun x => x == c) with
  | none => none
  | some k => some (s.length - 1 - k)

/-- The literal pieces of the markdown-fence pattern, as explicit
character lists (three backticks then the word json; three backticks). -/
def fenceOpenL : List Char := [btick, btick, btick, 'j', 's', 'o', 'n']

def fenceCloseL : List Char := [btick, btick, btick]

/-- The capture group of the first match of the markdown-fence pattern
(the regex over json fences with a lazy any-character capture bracketed by
greedy whitespace): locate the first occurrence of the opening fence,
skip the maximal whitespace run after it, and capture up to the first
closing triple-backtick, minus the whitespace run immediately before it.
Returns `none` when the pattern does not match. -/
def fenceCapture (text : List Char) : Option (List Char) :=
  match findSub fenceOpenL text with
  | none => none
  | some i =>
    let body := (text.drop (i + 7)).dropWhile isJsWs
    match findSub fenceCloseL body with
    | none => none
    | some q => some (trimEndJs (body.take q))

/-- Index of the first opening bracket or brace: the minimum of
indexOf of the two opening characters, with JS -1 handling. -/
def firstOpenIdx (text : List Char) : Option Nat :=
  match text.findIdx? (fun c => c == '['), text.findIdx? (fun c => c == lbraceChar) with
  | none, fb => fb
  | some b, none => some b
  | some b, some r => some (min b r)

/-- Index of the last closing bracket or brace: the maximum of
lastIndexOf of the two closing characters, with JS -1 handling. -/
def lastCloseIdx (text : List Char) : Option Nat :=
  match lastIdxOf ']' text, lastIdxOf rbraceChar text with
  | none, x => x
  | some b, none => some b
  | some b, some r => some (max b r)

/-- The error message thrown by extractJson, naming the offending text. -/
def jsonErrPre : List Char :=
  "Could not find a valid JSON object or array in the response. Model returned: \"".toList

def jsonErrSuf : List Char := "\"".toList

def jsonErrMsg (text : List Char) : List Char := jsonErrPre ++ text ++ jsonErrSuf

/-- The bracket-search fallback of extractJson: substring from the first
opening bracket/brace through the last closing bracket/brace inclusive,
or a thrown error when the span is missing or malformed. -/
def bracketExtract (text : List Char) : Except (List Char) (List Char) :=
  match firstOpenIdx text with
  | none => .error (jsonErrMsg text)
  | some s =>
    match lastCloseIdx text with
    | none => .error (jsonErrMsg text)
    | some e =>
      if e < s then .error (jsonErrMsg text)
      else .ok ((text.take (e + 1)).drop s)

/-- extractJson: prefer a fenced json block with a non-empty capture
(returned trimmed); otherwise fall back to the bracket search. -/
def extractJson (text : List Char) : Except (List Char) (List Char) :=
  match fenceCapture text with
  | some cap => if cap = [] then bracketExtract text else .ok (trimJs cap)
  | none => bracketExtract text

/-! ## Data model

`id` and `createdAt` fields of ImageVariation (wall-clock / random values)
are omitted; no claim mentions them.  `lang` (getCurrentLanguage) is an
input parameter.  The long English instruction texts of the planner
prompts are abbreviated to their input-dependent skeleton; they are inert
data whose exact wording no claim depends on. -/

/-- A source image as passed around the service: base64 payload and mime type. -/
structure Image where
  base64Data : List Char
  mimeType : List Char
deriving DecidableEq

/-- One planned variation as parsed from the plan JSON.  A missing
modifiedPrompt and the empty string behave identically under JS
truthiness and are both modelled by `[]`. -/
structure Variation where
  title : List Char
  description : List Char
  modifiedPrompt : List Char
deriving DecidableEq

/-- The parsed generation plan.  `variations = none` models a missing
field or one that is not an array; `textResponse = []` models a missing
or empty conversational text. -/
structure PlanResult where
  textResponse : List Char
  variations : Option (List Variation)
  followUpSuggestions : List (List Char)
deriving DecidableEq

/-- The retry payload attached to an error-state variation.  Fields are
optional exactly as in the source object literals: the new-image path
sets prompt and aspectRatio, the edit path sets images and prompt. -/
structure RetryPayload where
  images : Option (List Image)
  prompt : List Char
  aspectRatio : Option (List Char)
deriving DecidableEq

/-- An emitted variation outcome (success or error). -/
structure ImageVariation where
  title : List Char
  description : List Char
  imageUrl : List Char
  isError : Bool
  errorMessage : Option (List Char)
  retryPayload : Option RetryPayload
deriving DecidableEq

/-- The three event shapes yielded by the generators. -/
inductive GeneratorYield where
  | progress (message : List Char)
  | planEv (plan : PlanResult) (groundingMetadata : Option (List Char))
  | variation (v : ImageVariation)
deriving DecidableEq

def isProgressEv : GeneratorYield → Bool
  | .progress _ => true
  | _ => false

def isPlanEv : GeneratorYield → Bool
  | .planEv _ _ => true
  | _ => false

def isVariationEv : GeneratorYield → Bool
  | .variation _ => true
  | _ => false

/-! ## Remote-call interface (oracles) -/

/-- One part of a generateContent request. -/
inductive ReqPart where
  | inline (data : List Char) (mime : List Char)
  | txt (t : List Char)
deriving DecidableEq

/-- The config variants used by the service for generateContent calls. -/
inductive GenConfig where
  | jsonSchemaPlan
  | searchTool
  | imageOnly
  | jsonDetection
  | plain
deriving DecidableEq

/-- A generateContent request. -/
structure GenRequest where
  model : List Char
  parts : List ReqPart
  config : GenConfig
deriving DecidableEq

/-- A response part: optional inline image data and optional text. -/
structure Part where
  inlineData : Option (List Char)
  text : Option (List Char)
deriving DecidableEq

/-- A response candidate: content parts (when present) and grounding
metadata. -/
structure Candidate where
  contentParts : Option (List Part)
  groundingMetadata : Option (List Char)
deriving DecidableEq

/-- A generateContent response.  `text` is the SDK text accessor,
`blockReason` is promptFeedback.blockReason. -/
structure GenResponse where
  candidates : Option (List Candidate)
  text : List Char
  blockReason : Option (List Char)
deriving DecidableEq

/-- A generateImages request (numberOfImages is fixed at 1 in the source). -/
structure ImagesRequest where
  prompt : List Char
  aspectRatio : List Char
deriving DecidableEq

/-- A generateImages response; each generated image is its imageBytes. -/
structure ImagesResponse where
  generatedImages : Option (List (List Char))
  blockReason : Option (List Char)
deriving DecidableEq

/-! ## Error messages (verbatim from the source) -/

def missingKeyMsg : List Char :=
  "API_KEY environment variable not set. Please configure it to use the AI features.".toList

def promptRequiredMsg : List Char :=
  "A valid, non-empty prompt is required for image editing.".toList

def imageRequiredMsg : List Char :=
  "At least one image is required for editing.".toList

def blockedReasonPre : List Char :=
  "Image generation was blocked. Reason: ".toList

def noCandidatesMsg : List Char :=
  "The API did not return any candidates. The request may have been blocked or failed.".toList

def noPartsMsg : List Char :=
  "The API returned a candidate with no content parts.".toList

def noImageGenericMsg : List Char :=
  "The API did not return an image. The response may have been blocked.".toList

def aiFailedPre : List Char :=
  "The AI failed to generate an image and returned this message: \"".toList

def invalidPlanMsg : List Char :=
  "Failed to create a valid generation plan.".toList

def newProgressMsg : List Char := "Generating your new images...".toList

def searchingMsg : List Char := "Searching the web for inspiration...".toList

def analyzingMsg : List Char := "Analyzing results to craft prompts...".toList

def remixingMsg : List Char := "Remixing your image with new ideas...".toList

def noImagesMsg : List Char :=
  "The API did not return any images. The request may have been blocked or failed.".toList

def maskNoCandMsg : List Char :=
  "The API did not return any candidates for the masked edit.".toList

def maskNoImageMsg : List Char :=
  "The API did not return an image for the masked edit.".toList

def repoNoCandMsg : List Char :=
  "The API did not return any candidates for the reposition edit.".toList

def repoNoImageMsg : List Char :=
  "The API did not return an image for the reposition edit.".toList

def unknownGenErrMsg : List Char := "Unknown generation error.".toList

def styleSep : List Char := ", in the style of: ".toList

/-! ## Client initialization -/

/-- getAiClient: fails when the API_KEY environment variable is absent. -/
def getAiClient (apiKey : Option (List Char)) : Except (List Char) Unit :=
  match apiKey with
  | none => .error missingKeyMsg
  | some _ => .ok ()

/-! ## editImageInternal (the edit render path) -/

/-- The image-edit request built by editImageInternal. -/
def editRequest (images : List Image) (prompt : List Char) : GenRequest :=
  { model := "gemini-2.5-flash-image".toList
    parts := images.map (fun img => ReqPart.inline img.base64Data img.mimeType) ++ [ReqPart.txt prompt]
    config := GenConfig.imageOnly }

/-- The part-scanning loop of editImageInternal: the last part with
non-empty inline data wins as the returned image, the last part with
(no usable inline data and) non-empty text wins as the returned text. -/
def scanParts (parts : List Part) : Option (List Char) × Option (List Char) :=
  parts.foldl
    (fun acc pt =>
      match pt.inlineData with
      | some d =>
        if d ≠ [] then (some d, acc.2)
        else
          match pt.text with
          | some t => if t ≠ [] then (acc.1, some t) else acc
          | none => acc
      | none =>
        match pt.text with
        | some t => if t ≠ [] then (acc.1, some t) else acc
        | none => acc)
    (none, none)

/-- The message thrown when a response has no candidates, surfacing the
block reason when present. -/
def noCandidatesErr (resp : GenResponse) : List Char :=
  match resp.blockReason with
  | some r => blockedReasonPre ++ r
  | none => noCandidatesMsg

/-- Response handling of editImageInternal after a successful call. -/
def editResponseResult (resp : GenResponse) : Except (List Char) (List Char) :=
  match resp.candidates with
  | none => .error (noCandidatesErr resp)
  | some [] => .error (noCandidatesErr resp)
  | some (c :: _) =>
    match c.contentParts with
    | none => .error noPartsMsg
    | some parts =>
      match scanParts parts with
      | (some img, _) => .ok img
      | (none, some t) => .error (aiFailedPre ++ t ++ "\"".toList)
      | (none, none) => .error noImageGenericMsg

/-- editImageInternal: precondition checks (before client construction),
then one image-edit network call.  Returns the result together with the
list of network calls issued. -/
def editImageInternal (images : List Image) (prompt : List Char)
    (apiKey : Option (List Char)) (net : GenRequest → GenResponse) :
    Except (List Char) (List Char) × List GenRequest :=
  if trimJs prompt = [] then (.error promptRequiredMsg, [])
  else if images = [] then (.error imageRequiredMsg, [])
  else
    match getAiClient apiKey with
    | .error e => (.error e, [])
    | .ok _ =>
      let req := editRequest images prompt
      (editResponseResult (net req), [req])

/-- retryImageGeneration: delegates to editImageInternal. -/
def retryImageGeneration (images : List Image) (prompt : List Char)
    (apiKey : Option (List Char)) (net : GenRequest → GenResponse) :
    Except (List Char) (List Char) × List GenRequest :=
  editImageInternal images prompt apiKey net

/-! ## retryNewImageGeneration (the text-to-image render path) -/

/-- The message thrown when generateImages returns no images. -/
def noImagesErr (resp : ImagesResponse) : List Char :=
  match resp.blockReason with
  | some r => blockedReasonPre ++ r
  | none => noImagesMsg

/-- The generateImages request built by retryNewImageGeneration. -/
def newImagesRequest (prompt aspectRatio : List Char) : ImagesRequest :=
  { prompt := prompt, aspectRatio := aspectRatio }

/-- retryNewImageGeneration: one text-to-image call at the given aspect
ratio, returning the first generated image. -/
def retryNewImageGeneration (prompt aspectRatio : List Char)
    (apiKey : Option (List Char)) (netImages : ImagesRequest → ImagesResponse) :
    Except (List Char) (List Char) :=
  match getAiClient apiKey with
  | .error e => .error e
  | .ok _ =>
    let resp := netImages (newImagesRequest prompt aspectRatio)
    match resp.generatedImages with
    | none => .error (noImagesErr resp)
    | some [] => .error (noImagesErr resp)
    | some (b :: _) => .ok b

/-! ## Plan phase -/

/-- Decimal rendering of a count, for the image-count interpolation. -/
def natChars (n : Nat) : List Char := (toString n).toList

/-- The planner prompt of generateNewImages (instruction text abbreviated
to its input-dependent skeleton). -/
def newPlanPrompt (userPrompt lang aspectRatio : List Char) : List Char :=
  "You are a world-class creative director and prompt engineer acting as a planner. A user wants to generate a new image with the prompt: \"".toList
    ++ userPrompt
    ++ "\". The user language is \"".toList ++ lang
    ++ "\". Conceptualize 3 distinct variations; the prompt MUST be designed to generate an image with a ".toList
    ++ aspectRatio ++ " aspect ratio. Return this plan in the specified JSON format.".toList

/-- The planner prompt of the web-search branch of generateImageEdits
(instruction text abbreviated to its input-dependent skeleton). -/
def editPlanPromptSearch (numImages : Nat) (userPrompt lang aspectRatio : List Char) : List Char :=
  "You are a creative AI assistant. A user has provided ".toList
    ++ natChars numImages
    ++ " image(s) and a prompt in \"".toList ++ lang
    ++ "\": \"".toList ++ userPrompt
    ++ "\". Create a superior generation plan using multilingual web search; the final generated image MUST have a ".toList
    ++ aspectRatio
    ++ " aspect ratio. Your entire response must be a single, valid JSON object starting with \x7b and ending with \x7d, with no markdown formatting.".toList

/-- The planner prompt of the schema branch of generateImageEdits
(instruction text abbreviated to its input-dependent skeleton). -/
def editPlanPromptSchema (numImages : Nat) (userPrompt lang aspectRatio : List Char) : List Char :=
  "You are a world-class creative director and prompt engineer acting as a planner. A user wants to edit/combine ".toList
    ++ natChars numImages
    ++ " image(s) with the prompt: \"".toList ++ userPrompt
    ++ "\". The user language is \"".toList ++ lang
    ++ "\". Conceptualize 3 distinct variations; ensure the final image is rendered with a ".toList
    ++ aspectRatio ++ " aspect ratio. Return this plan in the specified JSON format.".toList

/-- The plan request issued by generateNewImages. -/
def newPlanRequest (userPrompt aspectRatio lang : List Char) : GenRequest :=
  { model := "gemini-2.5-flash".toList
    parts := [ReqPart.txt (newPlanPrompt userPrompt lang aspectRatio)]
    config := GenConfig.jsonSchemaPlan }

/-- The plan request issued by generateImageEdits: all image parts
followed by the branch-dependent planner prompt, with the search tool or
the response schema as config. -/
def editPlanRequest (images : List Image) (userPrompt lang aspectRatio : List Char)
    (useWebSearch : Bool) : GenRequest :=
  { model := "gemini-2.5-flash".toList
    parts := images.map (fun img => ReqPart.inline img.base64Data img.mimeType)
      ++ [ReqPart.txt (if useWebSearch then editPlanPromptSearch images.length userPrompt lang aspectRatio
                       else editPlanPromptSchema images.length userPrompt lang aspectRatio)]
    config := if useWebSearch then GenConfig.searchTool else GenConfig.jsonSchemaPlan }

/-- The plan validation shared by both generators: non-empty
conversational text and a non-empty variation array, else the fatal
planning error. -/
def validatePlan (plan : PlanResult) : Except (List Char) (PlanResult × List Variation) :=
  match plan.variations with
  | none => .error invalidPlanMsg
  | some vs =>
    if plan.textResponse = [] then .error invalidPlanMsg
    else if vs = [] then .error invalidPlanMsg
    else .ok (plan, vs)

/-- The grounding metadata read off the plan response
(candidates[0].groundingMetadata when present). -/
def groundingOf (resp : GenResponse) : Option (List Char) :=
  match resp.candidates with
  | some (c :: _) => c.groundingMetadata
  | _ => none

/-! ## Per-variation rendering -/

/-- The prompt used by the new-image loop: modifiedPrompt when truthy
(non-empty), else the original user prompt. -/
def newImagePrompt (userPrompt : List Char) (v : Variation) : List Char :=
  if v.modifiedPrompt = [] then userPrompt else v.modifiedPrompt

/-- The prompt used by the edit loop: modifiedPrompt when its trimmed
form is non-empty, else the fallback combining the user prompt and the
variation title. -/
def editPromptForGeneration (userPrompt : List Char) (v : Variation) : List Char :=
  if trimJs v.modifiedPrompt = [] then userPrompt ++ styleSep ++ v.title
  else v.modifiedPrompt

/-- One iteration of the generateNewImages loop: render via
retryNewImageGeneration, catching a thrown error into an error-state
variation carrying the retry payload.  Also returns the generateImages
request issued. -/
def renderNewVariation (userPrompt aspectRatio : List Char)
    (apiKey : Option (List Char)) (netImages : ImagesRequest → ImagesResponse)
    (v : Variation) : ImageVariation × ImagesRequest :=
  let promptForGeneration := newImagePrompt userPrompt v
  (match retryNewImageGeneration promptForGeneration aspectRatio apiKey netImages with
   | .ok b64 =>
     { title := v.title, description := v.description
       imageUrl := "data:image/png;base64,".toList ++ b64
       isError := false, errorMessage := none, retryPayload := none }
   | .error e =>
     { title := v.title, description := v.description
       imageUrl := []
       isError := true, errorMessage := some e
       retryPayload := some { images := none
                              prompt := newImagePrompt userPrompt v
                              aspectRatio := some aspectRatio } },
   newImagesRequest promptForGeneration aspectRatio)

/-- A default image for the (unreachable on success) head of an empty
image list. -/
def defaultImage : Image := { base64Data := [], mimeType := [] }

/-- One iteration of the generateImageEdits loop: render via
editImageInternal, catching a thrown error into an error-state variation
carrying the retry payload.  Also returns the network calls issued. -/
def renderEditVariation (images : List Image) (userPrompt : List Char)
    (apiKey : Option (List Char)) (net : GenRequest → GenResponse)
    (v : Variation) : ImageVariation × List GenRequest :=
  let promptForGeneration := editPromptForGeneration userPrompt v
  let call := editImageInternal images promptForGeneration apiKey net
  (match call.1 with
   | .ok b64 =>
     { title := v.title, description := v.description
       imageUrl := "data:".toList ++ (images.headD defaultImage).mimeType
         ++ ";base64,".toList ++ b64
       isError := false, errorMessage := none, retryPayload := none }
   | .error e =>
     { title := v.title, description := v.description
       imageUrl := []
       isError := true, errorMessage := some e
       retryPayload := some { images := some images
                              prompt := editPromptForGeneration userPrompt v
                              aspectRatio := none } },
   call.2)

/-! ## The two generator entry points -/

/-- The observable run of generateNewImages: the yielded events, the
error terminating the generator (if any), the plan requests issued and
the generateImages calls issued. -/
structure NewRun where
  events : List GeneratorYield
  thrown : Option (List Char)
  planRequests : List GenRequest
  netCalls : List ImagesRequest
deriving DecidableEq

/-- generateNewImages.  The useWebSearch argument is accepted (as in the
source signature) and, as in the source body, never used. -/
def generateNewImages (userPrompt : List Char) (useWebSearch : Bool)
    (aspectRatio lang : List Char) (apiKey : Option (List Char))
    (net : GenRequest → GenResponse)
    (planParse : List Char → Except (List Char) PlanResult)
    (netImages : ImagesRequest → ImagesResponse) : NewRun :=
  match getAiClient apiKey with
  | .error e => { events := [], thrown := some e, planRequests := [], netCalls := [] }
  | .ok _ =>
    let req := newPlanRequest userPrompt aspectRatio lang
    let resp := net req
    match extractJson resp.text with
    | .error e => { events := [], thrown := some e, planRequests := [req], netCalls := [] }
    | .ok j =>
      match planParse j with
      | .error e => { events := [], thrown := some e, planRequests := [req], netCalls := [] }
      | .ok plan =>
        match validatePlan plan with
        | .error e => { events := [], thrown := some e, planRequests := [req], netCalls := [] }
        | .ok (p, vs) =>
          let rendered := vs.map (renderNewVariation userPrompt aspectRatio apiKey netImages)
          { events := GeneratorYield.planEv p none
              :: GeneratorYield.progress newProgressMsg
              :: rendered.map (fun r => GeneratorYield.variation r.1)
            thrown := none
            planRequests := [req]
            netCalls := rendered.map (fun r => r.2) }

/-- The observable run of generateImageEdits: the yielded events, the
error terminating the generator (if any), the plan requests issued, the
renderer invocations (the prompt passed to editImageInternal, one per
planned variation) and the image-edit network calls issued. -/
structure EditRun where
  events : List GeneratorYield
  thrown : Option (List Char)
  planRequests : List GenRequest
  renders : List (List Char)
  netCalls : List GenRequest
deriving DecidableEq

/-- generateImageEdits.  In the web-search branch two progress events are
yielded before the plan call (the pacing delays are timing only and not
modelled). -/
def generateImageEdits (images : List Image) (userPrompt : List Char)
    (useWebSearch : Bool) (aspectRatio lang : List Char)
    (apiKey : Option (List Char)) (net : GenRequest → GenResponse)
    (planParse : List Char → Except (List Char) PlanResult) : EditRun :=
  match getAiClient apiKey with
  | .error e => { events := [], thrown := some e, planRequests := [], renders := [], netCalls := [] }
  | .ok _ =>
    let preEvents := if useWebSearch
      then [GeneratorYield.progress searchingMsg, GeneratorYield.progress analyzingMsg]
      else []
    let req := editPlanRequest images userPrompt lang aspectRatio useWebSearch
    let resp := net req
    match extractJson resp.text with
    | .error e => { events := preEvents, thrown := some e, planRequests := [req], renders := [], netCalls := [] }
    | .ok j =>
      match planParse j with
      | .error e => { events := preEvents, thrown := some e, planRequests := [req], renders := [], netCalls := [] }
      | .ok plan =>
        match validatePlan plan with
        | .error e => { events := preEvents, thrown := some e, planRequests := [req], renders := [], netCalls := [] }
        | .ok (p, vs) =>
          let rendered := vs.map (renderEditVariation images userPrompt apiKey net)
          { events := preEvents
              ++ GeneratorYield.planEv p (groundingOf resp)
              :: GeneratorYield.progress remixingMsg
              :: rendered.map (fun r => GeneratorYield.variation r.1)
            thrown := none
            planRequests := [req]
            renders := vs.map (editPromptForGeneration userPrompt)
            netCalls := rendered.flatMap (fun r => r.2) }

/-! ## Auxiliary capabilities -/

/-- One detected object of the segmentation response. -/
structure DetObject where
  id : List Char
  parentId : Option (List Char)
  label : List Char
  box2d : List Int
deriving DecidableEq

/-- The parsed segmentation result; `objects = none` models a missing
field. -/
structure DetectionResult where
  objects : Option (List DetObject)
deriving DecidableEq

/-- The object-detection request built by segmentObjectsInImage
(instruction text abbreviated: it is constant). -/
def segmentRequest (base64Data mimeType : List Char) : GenRequest :=
  { model := "gemini-2.5-flash".toList
    parts := [ReqPart.inline base64Data mimeType,
      ReqPart.txt "Analyze the provided image and perform hierarchical object detection. Return this information in the specified JSON format.".toList]
    config := GenConfig.jsonDetection }

/-- segmentObjectsInImage: a text/JSON call.  It performs no candidate or
image-part checks: it extracts and parses the textual response and
returns its objects list (or the empty list when the field is missing). -/
def segmentObjectsInImage (base64Data mimeType : List Char)
    (apiKey : Option (List Char)) (net : GenRequest → GenResponse)
    (detParse : List Char → Except (List Char) DetectionResult) :
    Except (List Char) (List DetObject) :=
  match getAiClient apiKey with
  | .error e => .error e
  | .ok _ =>
    let resp := net (segmentRequest base64Data mimeType)
    match extractJson resp.text with
    | .error e => .error e
    | .ok j =>
      match detParse j with
      | .error e => .error e
      | .ok r => .ok (r.objects.getD [])

/-- The masked-edit instruction text (abbreviated skeleton around the
interpolated user request). -/
def maskInstruction (prompt : List Char) : List Char :=
  "User request: \"".toList ++ prompt
    ++ "\". You are a professional photo editor. You MUST ONLY modify the white masked area; the rest of the image must remain completely unchanged.".toList

/-- The masked-edit request built by editImageWithMask. -/
def maskEditRequest (base64Data mimeType prompt maskBase64 : List Char) : GenRequest :=
  { model := "gemini-2.5-flash-image".toList
    parts := [ReqPart.inline base64Data mimeType,
      ReqPart.inline maskBase64 "image/png".toList,
      ReqPart.txt (maskInstruction prompt)]
    config := GenConfig.imageOnly }

/-- The image-collection loop shared by editImageWithMask and
applyRepositionEdit: every part with non-empty inline data, in order. -/
def collectImages (parts : List Part) : List (List Char) :=
  parts.filterMap (fun pt =>
    match pt.inlineData with
    | some d => if d = [] then none else some d
    | none => none)

/-- editImageWithMask: fails when the response has no candidates, when
the first candidate has no content parts, or when no part carries image
data; otherwise returns all returned images. -/
def editImageWithMask (base64Data mimeType prompt maskBase64 : List Char)
    (apiKey : Option (List Char)) (net : GenRequest → GenResponse) :
    Except (List Char) (List (List Char)) :=
  match getAiClient apiKey with
  | .error e => .error e
  | .ok _ =>
    let resp := net (maskEditRequest base64Data mimeType prompt maskBase64)
    match resp.candidates with
    | none => .error maskNoCandMsg
    | some [] => .error maskNoCandMsg
    | some (c :: _) =>
      match c.contentParts with
      | none => .error noPartsMsg
      | some parts =>
        let imgs := collectImages parts
        if imgs = [] then .error maskNoImageMsg else .ok imgs

/-- The apply-step request of the reposition flow. -/
def repositionRequest (instructionImageBase64 mimeType generatedPrompt : List Char) : GenRequest :=
  { model := "gemini-2.5-flash-image".toList
    parts := [ReqPart.inline instructionImageBase64 mimeType, ReqPart.txt generatedPrompt]
    config := GenConfig.imageOnly }

/-- applyRepositionEdit: same failure idioms as editImageWithMask, with
its own messages. -/
def applyRepositionEdit (instructionImageBase64 mimeType generatedPrompt : List Char)
    (apiKey : Option (List Char)) (net : GenRequest → GenResponse) :
    Except (List Char) (List (List Char)) :=
  match getAiClient apiKey with
  | .error e => .error e
  | .ok _ =>
    let resp := net (repositionRequest instructionImageBase64 mimeType generatedPrompt)
    match resp.candidates with
    | none => .error repoNoCandMsg
    | some [] => .error repoNoCandMsg
    | some (c :: _) =>
      match c.contentParts with
      | none => .error noPartsMsg
      | some parts =>
        let imgs := collectImages parts
        if imgs = [] then .error repoNoImageMsg else .ok imgs

/-! ## List lemmas for the fence matcher -/

theorem isPrefixOf_append_self : ∀ (l m : List Char), l.isPrefixOf (l ++ m) = true
  | [], _ => by simp [List.isPrefixOf]
  | a :: t, m => by
    simp only [List.cons_append, List.isPrefixOf]
    simp [isPrefixOf_append_self t m]

theorem not_isPrefixOf_cons (a x : Char) (n t : List Char) (h : x ≠ a) :
    (a :: n).isPrefixOf (x :: t) = false := by
  simp only [List.isPrefixOf]
  simp [beq_iff_eq]
  intro he
  exact absurd he.symm h

theorem findSub_append_head_notin (a : Char) (n : List Char) (pre rest : List Char)
    (hpre : ∀ c ∈ pre, c ≠ a) (hrest : (a :: n).isPrefixOf rest = true) :
    findSub (a :: n) (pre ++ rest) = some pre.length := by
  induction pre with
  | nil =>
    cases rest with
    | nil => simp [List.isPrefixOf] at hrest
    | cons x t => simp [findSub, hrest]
  | cons x t ih =>
    have hx : x ≠ a := hpre x (by simp)
    have : findSub (a :: n) (t ++ rest) = some t.length := ih (fun c hc => hpre c (by simp [hc]))
    simp [findSub, not_isPrefixOf_cons a x n _ hx, this]

theorem dropWhile_append_fixed (p : Char → Bool) (xs ys : List Char)
    (hy : ys.dropWhile p = ys) :
    (xs ++ ys).dropWhile p = xs.dropWhile p ++ ys := by
  rw [List.dropWhile_append]
  split
  · next h =>
    rw [List.isEmpty_iff] at h
    rw [h, hy, List.nil_append]
  · rfl

theorem dropWhile_dropWhile (p : Char → Bool) (l : List Char) :
    (l.dropWhile p).dropWhile p = l.dropWhile p := by
  induction l with
  | nil => rfl
  | cons a t ih =>
    by_cases h : p a
    · simp [List.dropWhile_cons, h, ih]
    · simp [List.dropWhile_cons, h]

theorem trimEndJs_cons_not (a : Char) (t : List Char) (h : isJsWs a = false) :
    trimEndJs (a :: t) = a :: (t.reverse.dropWhile isJsWs).reverse := by
  unfold trimEndJs
  rw [List.reverse_cons,
    dropWhile_append_fixed isJsWs t.reverse [a] (by simp [List.dropWhile_cons, h])]
  simp

theorem trimEndJs_trimEndJs (u : List Char) : trimEndJs (trimEndJs u) = trimEndJs u := by
  unfold trimEndJs
  rw [List.reverse_reverse, dropWhile_dropWhile]

theorem trimJs_idem (s : List Char) : trimJs (trimJs s) = trimJs s := by
  have hu := List.head?_dropWhile_not isJsWs s
  set u := s.dropWhile isJsWs with hudef
  have h1 : (trimEndJs u).dropWhile isJsWs = trimEndJs u := by
    cases hc : u with
    | nil => simp [trimEndJs]
    | cons a t =>
      have ha : isJsWs a = false := by
        rw [hc] at hu
        simpa using hu
      rw [trimEndJs_cons_not a t ha]
      simp [List.dropWhile_cons, ha]
  show trimJs (trimEndJs u) = trimEndJs u
  unfold trimJs
  rw [h1, trimEndJs_trimEndJs]

/-- The first regex match of the fence pattern on a text decomposing as
prefix, opening fence, body, closing fence, suffix (prefix and body free
of backticks) captures exactly the trimmed body. -/
theorem fenceCapture_decomp (pre body post : List Char)
    (hpre : ∀ c ∈ pre, c ≠ btick) (hbody : ∀ c ∈ body, c ≠ btick) :
    fenceCapture (pre ++ fenceOpenL ++ body ++ fenceCloseL ++ post) = some (trimJs body) := by
  have hopen : findSub fenceOpenL (pre ++ (fenceOpenL ++ (body ++ (fenceCloseL ++ post))))
      = some pre.length := by
    have : fenceOpenL.isPrefixOf (fenceOpenL ++ (body ++ (fenceCloseL ++ post))) = true :=
      isPrefixOf_append_self _ _
    exact findSub_append_head_notin btick _ pre _ hpre this
  have hdrop : (pre ++ (fenceOpenL ++ (body ++ (fenceCloseL ++ post)))).drop (pre.length + 7)
      = body ++ (fenceCloseL ++ post) := by
    rw [show pre ++ (fenceOpenL ++ (body ++ (fenceCloseL ++ post)))
        = (pre ++ fenceOpenL) ++ (body ++ (fenceCloseL ++ post)) by simp]
    exact List.drop_left' (by simp [fenceOpenL])
  have hclosefix : (fenceCloseL ++ post).dropWhile isJsWs = fenceCloseL ++ post := by
    show List.dropWhile isJsWs (btick :: (btick :: (btick :: ([] : List Char)) ++ post)) = _
    rw [List.dropWhile_cons]
    simp [show isJsWs btick = false by decide, fenceCloseL]
  have hbody1 : (body ++ (fenceCloseL ++ post)).dropWhile isJsWs
      = body.dropWhile isJsWs ++ (fenceCloseL ++ post) :=
    dropWhile_append_fixed isJsWs body _ hclosefix
  have hbsub : ∀ c ∈ body.dropWhile isJsWs, c ≠ btick := by
    intro c hc
    exact hbody c ((List.dropWhile_sublist isJsWs (l := body)).subset hc)
  have hclose : findSub fenceCloseL (body.dropWhile isJsWs ++ (fenceCloseL ++ post))
      = some (body.dropWhile isJsWs).length := by
    have : fenceCloseL.isPrefixOf (fenceCloseL ++ post) = true := isPrefixOf_append_self _ _
    exact findSub_append_head_notin btick _ _ _ hbsub this
  have htake : (body.dropWhile isJsWs ++ (fenceCloseL ++ post)).take (body.dropWhile isJsWs).length
      = body.dropWhile isJsWs := List.take_left _ _
  rw [show pre ++ fenceOpenL ++ body ++ fenceCloseL ++ post
      = pre ++ (fenceOpenL ++ (body ++ (fenceCloseL ++ post))) by simp]
  unfold fenceCapture
  rw [hopen]
  simp only [hdrop, hbody1, hclose, htake]
  rfl

/-- When the fence match does not apply with a non-empty capture,
extractJson is the bracket search. -/
theorem extractJson_eq_bracketExtract (text : List Char)
    (hf : fenceCapture text = none ∨ fenceCapture text = some []) :
    extractJson text = bracketExtract text := by
  unfold extractJson
  rcases hf with h | h <;> rw [h] <;> simp

/-! ## Claim C6 -/

/-- C6 counterexample: the input consisting of a fenced block around the
word ok contains no opening bracket and no opening brace, yet extractJson
returns normally (the fence branch runs before the bracket search), where
the claim says every such input throws. -/
theorem extractJson_no_bracket_fence_returns :
    ('[' ∉ "```json ok ```".toList ∧ lbraceChar ∉ "```json ok ```".toList)
    ∧ extractJson "```json ok ```".toList = .ok "ok".toList := by
  constructor
  · constructor <;> decide
  · decide

/-- C6 (amended): for every input on which the fenced-block pattern does
not yield a non-empty capture, extractJson throws an error whose message
contains the offending input text exactly when the bracket search fails
(no opening bracket/brace, no closing bracket/brace, or last closing
index before first opening index), and returns normally otherwise. -/
theorem extractJson_bracket_failure_cases (text : List Char)
    (hf : fenceCapture text = none ∨ fenceCapture text = some []) :
    (firstOpenIdx text = none →
      extractJson text = .error (jsonErrPre ++ text ++ jsonErrSuf))
    ∧ (∀ s, firstOpenIdx text = some s → lastCloseIdx text = none →
        extractJson text = .error (jsonErrPre ++ text ++ jsonErrSuf))
    ∧ (∀ s e, firstOpenIdx text = some s → lastCloseIdx text = some e → e < s →
        extractJson text = .error (jsonErrPre ++ text ++ jsonErrSuf))
    ∧ (∀ s e, firstOpenIdx text = some s → lastCloseIdx text = some e → s ≤ e →
        extractJson text = .ok ((text.take (e + 1)).drop s)) := by
  rw [extractJson_eq_bracketExtract text hf]
  refine ⟨?_, ?_, ?_, ?_⟩
  · intro h
    unfold bracketExtract
    rw [h]
    rfl
  · intro s hs hc
    unfold bracketExtract
    rw [hs, hc]
    rfl
  · intro s e hs hc hlt
    unfold bracketExtract
    rw [hs, hc]
    simp [hlt, jsonErrMsg]
  · intro s e hs hc hle
    unfold bracketExtract
    rw [hs, hc]
    simp [Nat.not_lt.mpr hle]

/-- C6 witness: the input hello has no fence capture and no opening
bracket/brace, and extractJson throws the error naming it. -/
theorem extractJson_bracket_failure_cases_witness :
    fenceCapture "hello".toList = none ∧ firstOpenIdx "hello".toList = none ∧
      extractJson "hello".toList = .error (jsonErrPre ++ "hello".toList ++ jsonErrSuf) := by
  have h1 : fenceCapture "hello".toList = none := by decide
  have h2 : firstOpenIdx "hello".toList = none := by decide
  exact ⟨h1, h2, (extractJson_bracket_failure_cases _ (Or.inl h1)).1 h2⟩

/-! ## Claim C7 -/

/-- C7 counterexample: (a) on the input hello (no fence), extractJson
throws rather than returning a bracket substring, where the claim says
every non-fenced input returns the bracket substring; (b) an input
wrapping the valid JSON object pairing key a with a string containing a
triple backtick in a fenced block makes extractJson return a proper cut
of the fenced contents, not the trimmed fenced contents. -/
theorem extractJson_fence_claim_fails :
    extractJson "hello".toList = .error (jsonErrPre ++ "hello".toList ++ jsonErrSuf)
    ∧ extractJson "```json\n\x7b\"a\": \"x``` \"\x7d\n```".toList = .ok "\x7b\"a\": \"x".toList
    ∧ "\x7b\"a\": \"x".toList ≠ trimJs "\x7b\"a\": \"x``` \"\x7d".toList := by
  refine ⟨by decide, by decide, by decide⟩

/-- C7 (amended): for every input decomposing as a fenced json block with
backtick-free surroundings before the fence and a backtick-free body with
non-empty trimmed contents, extractJson returns exactly the trimmed
fenced contents; and for every input without a non-empty fence capture on
which the bracket search succeeds (first opening bracket/brace at s, last
closing bracket/brace at e, s at most e), extractJson returns the
substring from s through e inclusive. -/
theorem extractJson_fenced_and_bracket (pre body post text2 : List Char)
    (hpre : ∀ c ∈ pre, c ≠ btick) (hbody : ∀ c ∈ body, c ≠ btick)
    (hne : trimJs body ≠ [])
    (hf2 : fenceCapture text2 = none ∨ fenceCapture text2 = some [])
    (s e : Nat) (hs : firstOpenIdx text2 = some s) (he : lastCloseIdx text2 = some e)
    (hse : s ≤ e) :
    extractJson (pre ++ fenceOpenL ++ body ++ fenceCloseL ++ post) = .ok (trimJs body)
    ∧ extractJson text2 = .ok ((text2.take (e + 1)).drop s) := by
  constructor
  · unfold extractJson
    rw [fenceCapture_decomp pre body post hpre hbody]
    simp [hne, trimJs_idem]
  · rw [extractJson_eq_bracketExtract text2 hf2]
    unfold bracketExtract
    rw [hs, he]
    simp [Nat.not_lt.mpr hse]

/-- C7 witness: a concrete fenced input returns its trimmed body, and a
concrete bracket input returns the inclusive bracket span. -/
theorem extractJson_fenced_and_bracket_witness :
    (∀ c ∈ "a ".toList, c ≠ btick) ∧ (∀ c ∈ " x1 ".toList, c ≠ btick)
    ∧ trimJs " x1 ".toList ≠ []
    ∧ fenceCapture "c[1]d".toList = none
    ∧ firstOpenIdx "c[1]d".toList = some 1 ∧ lastCloseIdx "c[1]d".toList = some 3
    ∧ extractJson ("a ".toList ++ fenceOpenL ++ " x1 ".toList ++ fenceCloseL ++ "tail".toList)
        = .ok (trimJs " x1 ".toList)
    ∧ extractJson "c[1]d".toList = .ok (("c[1]d".toList.take 4).drop 1) := by
  have h1 : ∀ c ∈ "a ".toList, c ≠ btick := by decide
  have h2 : ∀ c ∈ " x1 ".toList, c ≠ btick := by decide
  have h3 : trimJs " x1 ".toList ≠ [] := by decide
  have h4 : fenceCapture "c[1]d".toList = none := by decide
  have h5 : firstOpenIdx "c[1]d".toList = some 1 := by decide
  have h6 : lastCloseIdx "c[1]d".toList = some 3 := by decide
  have h7 := extractJson_fenced_and_bracket "a ".toList " x1 ".toList "tail".toList
    "c[1]d".toList h1 h2 h3 (Or.inl h4) 1 3 h5 h6 (by decide)
  exact ⟨h1, h2, h3, h4, h5, h6, h7.1, h7.2⟩

/-! ## Test fixtures (concrete oracles used by witnesses and
counterexamples) -/

def testImage : Image := { base64Data := "IMGDATA".toList, mimeType := "image/png".toList }

/-- A successful image-bearing generateContent response. -/
def goodGenResponse : GenResponse :=
  { candidates := some [{ contentParts := some [{ inlineData := some "OUT".toList, text := none }]
                          groundingMetadata := none }]
    text := []
    blockReason := none }

def testNetGood : GenRequest → GenResponse := fun _ => goodGenResponse

/-- The raw text of a plan response: the two-character JSON object. -/
def planRespText : List Char := "\x7b\x7d".toList

/-- A plan-call oracle answering every request with the JSON object text. -/
def testNetPlan : GenRequest → GenResponse := fun _ =>
  { candidates := none, text := planRespText, blockReason := none }

def vA : Variation := { title := "A".toList, description := "dA".toList, modifiedPrompt := "pA".toList }

def vB : Variation := { title := "B".toList, description := "dB".toList, modifiedPrompt := "pB".toList }

def vC : Variation := { title := "C".toList, description := "dC".toList, modifiedPrompt := "pC".toList }

def testPlan3 : PlanResult :=
  { textResponse := "ok".toList, variations := some [vA, vB, vC], followUpSuggestions := [] }

def testParse3 : List Char → Except (List Char) PlanResult := fun _ => .ok testPlan3

def testNetImagesOK : ImagesRequest → ImagesResponse := fun _ =>
  { generatedImages := some ["B64".toList], blockReason := none }

/-! ## Run-shape lemmas for the generators -/

theorem validatePlan_invalid (plan : PlanResult)
    (hbad : plan.textResponse = [] ∨ plan.variations = none ∨ plan.variations = some []) :
    validatePlan plan = .error invalidPlanMsg := by
  unfold validatePlan
  rcases hbad with h | h | h
  · cases hv : plan.variations with
    | none => rfl
    | some vs => simp [h]
  · rw [h]
  · rw [h]
    simp

theorem validatePlan_valid (plan : PlanResult) (vs : List Variation)
    (h4 : plan.variations = some vs) (h3 : plan.textResponse ≠ []) (h5 : vs ≠ []) :
    validatePlan plan = .ok (plan, vs) := by
  unfold validatePlan
  rw [h4]
  simp [h3, h5]

theorem renderNewVariation_snd (userPrompt aspectRatio : List Char)
    (apiKey : Option (List Char)) (netImages : ImagesRequest → ImagesResponse)
    (v : Variation) :
    (renderNewVariation userPrompt aspectRatio apiKey netImages v).2
      = newImagesRequest (newImagePrompt userPrompt v) aspectRatio := rfl

theorem generateNewImages_invalid (userPrompt aspectRatio lang key : List Char) (ws : Bool)
    (net : GenRequest → GenResponse)
    (planParse : List Char → Except (List Char) PlanResult)
    (netImages : ImagesRequest → ImagesResponse)
    (j : List Char) (plan : PlanResult)
    (h1 : extractJson (net (newPlanRequest userPrompt aspectRatio lang)).text = .ok j)
    (h2 : planParse j = .ok plan)
    (hbad : plan.textResponse = [] ∨ plan.variations = none ∨ plan.variations = some []) :
    generateNewImages userPrompt ws aspectRatio lang (some key) net planParse netImages
      = { events := [], thrown := some invalidPlanMsg
          planRequests := [newPlanRequest userPrompt aspectRatio lang], netCalls := [] } := by
  unfold generateNewImages
  simp only [getAiClient]
  rw [h1]
  dsimp only
  rw [h2]
  dsimp only
  rw [validatePlan_invalid plan hbad]

theorem generateNewImages_success (userPrompt aspectRatio lang key : List Char) (ws : Bool)
    (net : GenRequest → GenResponse)
    (planParse : List Char → Except (List Char) PlanResult)
    (netImages : ImagesRequest → ImagesResponse)
    (j : List Char) (plan : PlanResult) (vs : List Variation)
    (h1 : extractJson (net (newPlanRequest userPrompt aspectRatio lang)).text = .ok j)
    (h2 : planParse j = .ok plan)
    (h3 : plan.textResponse ≠ []) (h4 : plan.variations = some vs) (h5 : vs ≠ []) :
    generateNewImages userPrompt ws aspectRatio lang (some key) net planParse netImages
      = { events := GeneratorYield.planEv plan none :: GeneratorYield.progress newProgressMsg
            :: vs.map (fun v => GeneratorYield.variation
                (renderNewVariation userPrompt aspectRatio (some key) netImages v).1)
          thrown := none
          planRequests := [newPlanRequest userPrompt aspectRatio lang]
          netCalls := vs.map (fun v => newImagesRequest (newImagePrompt userPrompt v) aspectRatio) } := by
  unfold generateNewImages
  simp only [getAiClient]
  rw [h1]
  dsimp only
  rw [h2]
  dsimp only
  rw [validatePlan_valid plan vs h4 h3 h5]
  simp [List.map_map, Function.comp, renderNewVariation_snd]

theorem generateImageEdits_invalid (images : List Image)
    (userPrompt aspectRatio lang key : List Char) (ws : Bool)
    (net : GenRequest → GenResponse)
    (planParse : List Char → Except (List Char) PlanResult)
    (j : List Char) (plan : PlanResult)
    (h1 : extractJson (net (editPlanRequest images userPrompt lang aspectRatio ws)).text = .ok j)
    (h2 : planParse j = .ok plan)
    (hbad : plan.textResponse = [] ∨ plan.variations = none ∨ plan.variations = some []) :
    generateImageEdits images userPrompt ws aspectRatio lang (some key) net planParse
      = { events := if ws then [GeneratorYield.progress searchingMsg,
            GeneratorYield.progress analyzingMsg] else []
          thrown := some invalidPlanMsg
          planRequests := [editPlanRequest images userPrompt lang aspectRatio ws]
          renders := [], netCalls := [] } := by
  unfold generateImageEdits
  simp only [getAiClient]
  rw [h1]
  dsimp only
  rw [h2]
  dsimp only
  rw [validatePlan_invalid plan hbad]

theorem generateImageEdits_success (images : List Image)
    (userPrompt aspectRatio lang key : List Char) (ws : Bool)
    (net : GenRequest → GenResponse)
    (planParse : List Char → Except (List Char) PlanResult)
    (j : List Char) (plan : PlanResult) (vs : List Variation)
    (h1 : extractJson (net (editPlanRequest images userPrompt lang aspectRatio ws)).text = .ok j)
    (h2 : planParse j = .ok plan)
    (h3 : plan.textResponse ≠ []) (h4 : plan.variations = some vs) (h5 : vs ≠ []) :
    generateImageEdits images userPrompt ws aspectRatio lang (some key) net planParse
      = { events := (if ws then [GeneratorYield.progress searchingMsg,
            GeneratorYield.progress analyzingMsg] else [])
            ++ GeneratorYield.planEv plan
                (groundingOf (net (editPlanRequest images userPrompt lang aspectRatio ws)))
              :: GeneratorYield.progress remixingMsg
              :: vs.map (fun v => GeneratorYield.variation
                  (renderEditVariation images userPrompt (some key) net v).1)
          thrown := none
          planRequests := [editPlanRequest images userPrompt lang aspectRatio ws]
          renders := vs.map (editPromptForGeneration userPrompt)
          netCalls := vs.flatMap (fun v =>
            (renderEditVariation images userPrompt (some key) net v).2) } := by
  unfold generateImageEdits
  simp only [getAiClient]
  rw [h1]
  dsimp only
  rw [h2]
  dsimp only
  rw [validatePlan_valid plan vs h4 h3 h5]
  simp [List.map_map, Function.comp, List.flatMap_def]
  rfl

/-! ## Claim C10 -/

/-- C10: every call of the edit render path with an empty or
whitespace-only prompt, or with an empty image list, throws the
precondition error and issues no network call (even when no API key is
configured: the precondition check precedes client construction), and
retryImageGeneration is exactly editImageInternal. -/
theorem edit_preconditions_block_network (images : List Image) (prompt : List Char)
    (apiKey : Option (List Char)) (net : GenRequest → GenResponse)
    (h : trimJs prompt = [] ∨ images = []) :
    (editImageInternal images prompt apiKey net).2 = []
    ∧ (editImageInternal images prompt apiKey net).1
        = .error (if trimJs prompt = [] then promptRequiredMsg else imageRequiredMsg)
    ∧ retryImageGeneration images prompt apiKey net
        = editImageInternal images prompt apiKey net := by
  by_cases hp : trimJs prompt = []
  · simp [editImageInternal, retryImageGeneration, hp]
  · have hi : images = [] := h.resolve_left hp
    simp [editImageInternal, retryImageGeneration, hp, hi]

/-- C10 witness: a whitespace-only prompt with one image and no API key
configured still yields the prompt precondition error with no network
call. -/
theorem edit_preconditions_block_network_witness :
    (trimJs "  ".toList = [] ∨ ([testImage] : List Image) = [])
    ∧ (editImageInternal [testImage] "  ".toList none testNetGood).2 = []
    ∧ (editImageInternal [testImage] "  ".toList none testNetGood).1
        = .error (if trimJs "  ".toList = [] then promptRequiredMsg else imageRequiredMsg)
    ∧ retryImageGeneration [testImage] "  ".toList none testNetGood
        = editImageInternal [testImage] "  ".toList none testNetGood := by
  have h : trimJs "  ".toList = [] ∨ ([testImage] : List Image) = [] := Or.inl (by decide)
  exact ⟨h, edit_preconditions_block_network [testImage] "  ".toList none testNetGood h⟩

/-! ## Claim C8 -/

/-- C8: generateNewImages is independent of the useWebSearch flag: for
every user prompt, aspect ratio, language, key and remote behavior, the
runs with the flag true and false are identical (same events, same plan
requests, same image-generation calls). -/
theorem generateNewImages_websearch_independent
    (userPrompt aspectRatio lang : List Char) (apiKey : Option (List Char))
    (net : GenRequest → GenResponse)
    (planParse : List Char → Except (List Char) PlanResult)
    (netImages : ImagesRequest → ImagesResponse) :
    generateNewImages userPrompt true aspectRatio lang apiKey net planParse netImages
      = generateNewImages userPrompt false aspectRatio lang apiKey net planParse netImages := rfl

/-! ## Claim C2 -/

/-- An invalid parsed plan used by witnesses: empty conversational text. -/
def planInvalid : PlanResult :=
  { textResponse := [], variations := some [vA], followUpSuggestions := [] }

def parseInvalid : List Char → Except (List Char) PlanResult := fun _ => .ok planInvalid

/-- C2: for every parsed plan whose conversational text is empty/missing
or whose variations field is not a non-empty array, both generators throw
the fatal planning error, attempt no render call, and emit no plan or
variation event (the web-search edit branch may have emitted progress
events only). -/
theorem invalid_plan_fatal_before_render (images : List Image)
    (userPrompt aspectRatio lang key : List Char) (ws : Bool)
    (net : GenRequest → GenResponse)
    (planParse : List Char → Except (List Char) PlanResult)
    (netImages : ImagesRequest → ImagesResponse)
    (plan : PlanResult)
    (hbad : plan.textResponse = [] ∨ plan.variations = none ∨ plan.variations = some [])
    (jN jE : List Char)
    (hN1 : extractJson (net (newPlanRequest userPrompt aspectRatio lang)).text = .ok jN)
    (hN2 : planParse jN = .ok plan)
    (hE1 : extractJson (net (editPlanRequest images userPrompt lang aspectRatio ws)).text = .ok jE)
    (hE2 : planParse jE = .ok plan) :
    (generateNewImages userPrompt ws aspectRatio lang (some key) net planParse netImages
       = { events := [], thrown := some invalidPlanMsg
           planRequests := [newPlanRequest userPrompt aspectRatio lang], netCalls := [] })
    ∧ (generateImageEdits images userPrompt ws aspectRatio lang (some key) net planParse
       = { events := if ws then [GeneratorYield.progress searchingMsg,
             GeneratorYield.progress analyzingMsg] else []
           thrown := some invalidPlanMsg
           planRequests := [editPlanRequest images userPrompt lang aspectRatio ws]
           renders := [], netCalls := [] })
    ∧ (∀ ev ∈ (generateImageEdits images userPrompt ws aspectRatio lang
          (some key) net planParse).events,
        isPlanEv ev = false ∧ isVariationEv ev = false) := by
  have hN := generateNewImages_invalid userPrompt aspectRatio lang key ws net planParse
    netImages jN plan hN1 hN2 hbad
  have hE := generateImageEdits_invalid images userPrompt aspectRatio lang key ws net planParse
    jE plan hE1 hE2 hbad
  refine ⟨hN, hE, ?_⟩
  rw [hE]
  intro ev hev
  cases ws with
  | false => simp at hev
  | true =>
    simp at hev
    rcases hev with h | h <;> subst h <;> exact ⟨rfl, rfl⟩

/-- C2 witness: a plan with empty conversational text makes both
generators fail with the planning error before any render call. -/
theorem invalid_plan_fatal_before_render_witness :
    (planInvalid.textResponse = [] ∨ planInvalid.variations = none
      ∨ planInvalid.variations = some [])
    ∧ extractJson (testNetPlan (newPlanRequest "P".toList "1:1".toList "en".toList)).text
        = .ok planRespText
    ∧ parseInvalid planRespText = .ok planInvalid
    ∧ extractJson (testNetPlan (editPlanRequest [testImage] "P".toList "en".toList
        "1:1".toList false)).text = .ok planRespText
    ∧ generateNewImages "P".toList false "1:1".toList "en".toList (some "k".toList)
        testNetPlan parseInvalid testNetImagesOK
        = { events := [], thrown := some invalidPlanMsg
            planRequests := [newPlanRequest "P".toList "1:1".toList "en".toList], netCalls := [] }
    ∧ generateImageEdits [testImage] "P".toList false "1:1".toList "en".toList
        (some "k".toList) testNetPlan parseInvalid
        = { events := []
            thrown := some invalidPlanMsg
            planRequests := [editPlanRequest [testImage] "P".toList "en".toList "1:1".toList false]
            renders := [], netCalls := [] } := by
  have hbad : planInvalid.textResponse = [] ∨ planInvalid.variations = none
      ∨ planInvalid.variations = some [] := Or.inl rfl
  have hN1 : extractJson (testNetPlan (newPlanRequest "P".toList "1:1".toList
      "en".toList)).text = .ok planRespText := by decide
  have hE1 : extractJson (testNetPlan (editPlanRequest [testImage] "P".toList "en".toList
      "1:1".toList false)).text = .ok planRespText := by decide
  have h := invalid_plan_fatal_before_render [testImage] "P".toList "1:1".toList "en".toList
    "k".toList false testNetPlan parseInvalid testNetImagesOK planInvalid hbad
    planRespText planRespText hN1 rfl hE1 rfl
  exact ⟨hbad, hN1, rfl, hE1, h.1, h.2.1⟩

/-! ## Claim C3 -/

/-- C3: for a new-image turn whose plan validates with 3 variations, the
generateNewImages event stream is exactly the plan event, one progress
event, and the three variation events one per planned variation in plan
order; the stream is this emission-ordered list, with exactly 1 progress
event, exactly 1 plan event and exactly 3 variation events. -/
theorem new_image_stream_shape (userPrompt aspectRatio lang key : List Char) (ws : Bool)
    (net : GenRequest → GenResponse)
    (planParse : List Char → Except (List Char) PlanResult)
    (netImages : ImagesRequest → ImagesResponse)
    (j : List Char) (plan : PlanResult) (vs : List Variation)
    (h1 : extractJson (net (newPlanRequest userPrompt aspectRatio lang)).text = .ok j)
    (h2 : planParse j = .ok plan)
    (h3 : plan.textResponse ≠ []) (h4 : plan.variations = some vs) (h5 : vs.length = 3) :
    (generateNewImages userPrompt ws aspectRatio lang (some key) net planParse netImages).thrown
        = none
    ∧ (generateNewImages userPrompt ws aspectRatio lang (some key) net planParse netImages).events
        = GeneratorYield.planEv plan none :: GeneratorYield.progress newProgressMsg
          :: vs.map (fun v => GeneratorYield.variation
              (renderNewVariation userPrompt aspectRatio (some key) netImages v).1)
    ∧ ((generateNewImages userPrompt ws aspectRatio lang (some key) net planParse
        netImages).events.countP isProgressEv) = 1
    ∧ ((generateNewImages userPrompt ws aspectRatio lang (some key) net planParse
        netImages).events.countP isPlanEv) = 1
    ∧ ((generateNewImages userPrompt ws aspectRatio lang (some key) net planParse
        netImages).events.countP isVariationEv) = 3 := by
  have h5' : vs ≠ [] := by
    intro h
    rw [h] at h5
    simp at h5
  have hrun := generateNewImages_success userPrompt aspectRatio lang key ws net planParse
    netImages j plan vs h1 h2 h3 h4 h5'
  rw [hrun]
  refine ⟨rfl, rfl, ?_, ?_, ?_⟩ <;>
    simp [List.countP_cons, List.countP_map, Function.comp_def, isProgressEv, isPlanEv,
      isVariationEv, List.countP_true, List.countP_false, h5]

/-- C3 witness: a concrete 3-variation plan produces the five-event
stream with the stated counts. -/
theorem new_image_stream_shape_witness :
    extractJson (testNetPlan (newPlanRequest "P".toList "1:1".toList "en".toList)).text
        = .ok planRespText
    ∧ testParse3 planRespText = .ok testPlan3
    ∧ testPlan3.textResponse ≠ []
    ∧ testPlan3.variations = some [vA, vB, vC]
    ∧ ([vA, vB, vC] : List Variation).length = 3
    ∧ (generateNewImages "P".toList false "1:1".toList "en".toList (some "k".toList)
        testNetPlan testParse3 testNetImagesOK).events
        = GeneratorYield.planEv testPlan3 none :: GeneratorYield.progress newProgressMsg
          :: ([vA, vB, vC] : List Variation).map (fun v => GeneratorYield.variation
              (renderNewVariation "P".toList "1:1".toList (some "k".toList) testNetImagesOK v).1)
    ∧ ((generateNewImages "P".toList false "1:1".toList "en".toList (some "k".toList)
        testNetPlan testParse3 testNetImagesOK).events.countP isProgressEv) = 1
    ∧ ((generateNewImages "P".toList false "1:1".toList "en".toList (some "k".toList)
        testNetPlan testParse3 testNetImagesOK).events.countP isPlanEv) = 1
    ∧ ((generateNewImages "P".toList false "1:1".toList "en".toList (some "k".toList)
        testNetPlan testParse3 testNetImagesOK).events.countP isVariationEv) = 3 := by
  have h1 : extractJson (testNetPlan (newPlanRequest "P".toList "1:1".toList
      "en".toList)).text = .ok planRespText := by decide
  have h3 : testPlan3.textResponse ≠ [] := by decide
  have h := new_image_stream_shape "P".toList "1:1".toList "en".toList "k".toList false
    testNetPlan testParse3 testNetImagesOK planRespText testPlan3 [vA, vB, vC]
    h1 rfl h3 rfl rfl
  exact ⟨h1, rfl, h3, rfl, rfl, h.2.1, h.2.2.1, h.2.2.2.1, h.2.2.2.2⟩

/-! ## Claim C1 -/

def planTwo : PlanResult :=
  { textResponse := "ok".toList, variations := some [vA, vB], followUpSuggestions := [] }

def parseTwo : List Char → Except (List Char) PlanResult := fun _ => .ok planTwo

/-- A response with an empty candidate list (request blocked). -/
def noCandResponse : GenResponse := { candidates := some [], text := [], blockReason := none }

/-- A content oracle that serves the plan text for plan calls and fails
exactly the render call whose prompt is the one of variation B. -/
def testNetC1 : GenRequest → GenResponse := fun req =>
  match req.config with
  | GenConfig.imageOnly =>
    if ReqPart.txt "pB".toList ∈ req.parts then noCandResponse else goodGenResponse
  | _ => { candidates := none, text := planRespText, blockReason := none }

/-- An image oracle failing exactly the render call for variation B. -/
def testNetImagesC1 : ImagesRequest → ImagesResponse := fun r =>
  if r.prompt = "pB".toList then { generatedImages := none, blockReason := none }
  else { generatedImages := some ["B64".toList], blockReason := none }

/-- C1: for a validated plan, both generators render every planned
variation in plan order and never terminate early: the event stream ends
with one variation event per planned variation, each a function of that
variation alone, and the renderer is invoked once per variation
(renders/netCalls lists).  A variation whose render call throws yields an
error-state ImageVariation carrying the thrown message and a present
retry payload, without affecting any sibling. -/
theorem variation_failures_isolated (images : List Image)
    (userPrompt aspectRatio lang key : List Char) (ws : Bool)
    (net : GenRequest → GenResponse)
    (planParse : List Char → Except (List Char) PlanResult)
    (netImages : ImagesRequest → ImagesResponse)
    (jE jN : List Char) (planE planN : PlanResult) (vsE vsN : List Variation)
    (hE1 : extractJson (net (editPlanRequest images userPrompt lang aspectRatio ws)).text
        = .ok jE)
    (hE2 : planParse jE = .ok planE) (hE3 : planE.textResponse ≠ [])
    (hE4 : planE.variations = some vsE) (hE5 : vsE ≠ [])
    (hN1 : extractJson (net (newPlanRequest userPrompt aspectRatio lang)).text = .ok jN)
    (hN2 : planParse jN = .ok planN) (hN3 : planN.textResponse ≠ [])
    (hN4 : planN.variations = some vsN) (hN5 : vsN ≠ []) :
    ((generateImageEdits images userPrompt ws aspectRatio lang (some key) net planParse).thrown
        = none
     ∧ (generateImageEdits images userPrompt ws aspectRatio lang (some key) net planParse).events
        = (if ws then [GeneratorYield.progress searchingMsg,
            GeneratorYield.progress analyzingMsg] else [])
          ++ GeneratorYield.planEv planE
              (groundingOf (net (editPlanRequest images userPrompt lang aspectRatio ws)))
            :: GeneratorYield.progress remixingMsg
            :: vsE.map (fun v => GeneratorYield.variation
                (renderEditVariation images userPrompt (some key) net v).1)
     ∧ (generateImageEdits images userPrompt ws aspectRatio lang (some key) net planParse).renders
        = vsE.map (editPromptForGeneration userPrompt))
    ∧ (∀ v e,
        (editImageInternal images (editPromptForGeneration userPrompt v) (some key) net).1
            = .error e →
        (renderEditVariation images userPrompt (some key) net v).1
          = { title := v.title, description := v.description, imageUrl := []
              isError := true, errorMessage := some e
              retryPayload := some { images := some images
                                     prompt := editPromptForGeneration userPrompt v
                                     aspectRatio := none } })
    ∧ ((generateNewImages userPrompt ws aspectRatio lang (some key) net planParse
          netImages).thrown = none
     ∧ (generateNewImages userPrompt ws aspectRatio lang (some key) net planParse
          netImages).events
        = GeneratorYield.planEv planN none :: GeneratorYield.progress newProgressMsg
          :: vsN.map (fun v => GeneratorYield.variation
              (renderNewVariation userPrompt aspectRatio (some key) netImages v).1)
     ∧ (generateNewImages userPrompt ws aspectRatio lang (some key) net planParse
          netImages).netCalls
        = vsN.map (fun v => newImagesRequest (newImagePrompt userPrompt v) aspectRatio))
    ∧ (∀ v e,
        retryNewImageGeneration (newImagePrompt userPrompt v) aspectRatio (some key) netImages
            = .error e →
        (renderNewVariation userPrompt aspectRatio (some key) netImages v).1
          = { title := v.title, description := v.description, imageUrl := []
              isError := true, errorMessage := some e
              retryPayload := some { images := none
                                     prompt := newImagePrompt userPrompt v
                                     aspectRatio := some aspectRatio } }) := by
  have hE := generateImageEdits_success images userPrompt aspectRatio lang key ws net planParse
    jE planE vsE hE1 hE2 hE3 hE4 hE5
  have hN := generateNewImages_success userPrompt aspectRatio lang key ws net planParse
    netImages jN planN vsN hN1 hN2 hN3 hN4 hN5
  refine ⟨⟨?_, ?_, ?_⟩, ?_, ⟨?_, ?_, ?_⟩, ?_⟩
  · rw [hE]
  · rw [hE]
  · rw [hE]
  · intro v e hv
    simp only [renderEditVariation]
    rw [hv]
  · rw [hN]
  · rw [hN]
  · rw [hN]
  · intro v e hv
    simp only [renderNewVariation]
    rw [hv]

/-- C1 witness: with a two-variation plan whose second render call throws
in both paths, both generators still emit both variation events in plan
order, invoke the renderer for both, and mark only the second variation
as an error carrying the thrown message and a retry payload. -/
theorem variation_failures_isolated_witness :
    extractJson (testNetC1 (editPlanRequest [testImage] "P".toList "en".toList
        "1:1".toList false)).text = .ok planRespText
    ∧ extractJson (testNetC1 (newPlanRequest "P".toList "1:1".toList "en".toList)).text
        = .ok planRespText
    ∧ planTwo.textResponse ≠ [] ∧ planTwo.variations = some [vA, vB]
    ∧ (editImageInternal [testImage] (editPromptForGeneration "P".toList vB)
        (some "k".toList) testNetC1).1 = .error noCandidatesMsg
    ∧ retryNewImageGeneration (newImagePrompt "P".toList vB) "1:1".toList
        (some "k".toList) testNetImagesC1 = .error noImagesMsg
    ∧ (generateImageEdits [testImage] "P".toList false "1:1".toList "en".toList
        (some "k".toList) testNetC1 parseTwo).events
      = GeneratorYield.planEv planTwo
            (groundingOf (testNetC1 (editPlanRequest [testImage] "P".toList "en".toList
              "1:1".toList false)))
          :: GeneratorYield.progress remixingMsg
          :: ([vA, vB] : List Variation).map (fun v => GeneratorYield.variation
              (renderEditVariation [testImage] "P".toList (some "k".toList) testNetC1 v).1)
    ∧ (generateImageEdits [testImage] "P".toList false "1:1".toList "en".toList
        (some "k".toList) testNetC1 parseTwo).renders
      = ([vA, vB] : List Variation).map (editPromptForGeneration "P".toList)
    ∧ (renderEditVariation [testImage] "P".toList (some "k".toList) testNetC1 vB).1
      = { title := vB.title, description := vB.description, imageUrl := []
          isError := true, errorMessage := some noCandidatesMsg
          retryPayload := some { images := some [testImage]
                                 prompt := editPromptForGeneration "P".toList vB
                                 aspectRatio := none } }
    ∧ (generateNewImages "P".toList false "1:1".toList "en".toList (some "k".toList)
        testNetC1 parseTwo testNetImagesC1).events
      = GeneratorYield.planEv planTwo none :: GeneratorYield.progress newProgressMsg
          :: ([vA, vB] : List Variation).map (fun v => GeneratorYield.variation
              (renderNewVariation "P".toList "1:1".toList (some "k".toList) testNetImagesC1 v).1)
    ∧ (renderNewVariation "P".toList "1:1".toList (some "k".toList) testNetImagesC1 vB).1
      = { title := vB.title, description := vB.description, imageUrl := []
          isError := true, errorMessage := some noImagesMsg
          retryPayload := some { images := none
                                 prompt := newImagePrompt "P".toList vB
                                 aspectRatio := some "1:1".toList } } := by
  have hE1 : extractJson (testNetC1 (editPlanRequest [testImage] "P".toList "en".toList
      "1:1".toList false)).text = .ok planRespText := by decide
  have hN1 : extractJson (testNetC1 (newPlanRequest "P".toList "1:1".toList
      "en".toList)).text = .ok planRespText := by decide
  have h3 : planTwo.textResponse ≠ [] := by decide
  have hEfail : (editImageInternal [testImage] (editPromptForGeneration "P".toList vB)
      (some "k".toList) testNetC1).1 = .error noCandidatesMsg := by decide
  have hNfail : retryNewImageGeneration (newImagePrompt "P".toList vB) "1:1".toList
      (some "k".toList) testNetImagesC1 = .error noImagesMsg := by decide
  have h := variation_failures_isolated [testImage] "P".toList "1:1".toList "en".toList
    "k".toList false testNetC1 parseTwo testNetImagesC1 planRespText planRespText
    planTwo planTwo [vA, vB] [vA, vB] hE1 rfl h3 rfl (by decide) hN1 rfl h3 rfl (by decide)
  exact ⟨hE1, hN1, h3, rfl, hEfail, hNfail, h.1.2.1, h.1.2.2, h.2.1 vB noCandidatesMsg hEfail,
    h.2.2.1.2.1, h.2.2.2 vB noImagesMsg hNfail⟩

/-! ## Claim C4 -/

def vEmptyPrompt : Variation :=
  { title := "T".toList, description := "d".toList, modifiedPrompt := [] }

def planEmpty : PlanResult :=
  { textResponse := "ok".toList, variations := some [vEmptyPrompt], followUpSuggestions := [] }

def parseEmpty : List Char → Except (List Char) PlanResult := fun _ => .ok planEmpty

def netImagesFail : ImagesRequest → ImagesResponse := fun _ =>
  { generatedImages := none, blockReason := none }

/-- C4 counterexample: in the new-image path, for a planned variation
with empty modifiedPrompt and title T, the prompt sent to the renderer
and stored in the retry payload is the bare user prompt P, which differs
from the user prompt combined with the title — the claim asserts the
combined fallback for both paths. -/
theorem new_path_fallback_prompt_drops_title :
    (generateNewImages "P".toList false "1:1".toList "en".toList (some "k".toList)
        testNetPlan parseEmpty netImagesFail).netCalls
      = [newImagesRequest "P".toList "1:1".toList]
    ∧ (generateNewImages "P".toList false "1:1".toList "en".toList (some "k".toList)
        testNetPlan parseEmpty netImagesFail).events.getLast?
      = some (GeneratorYield.variation
          { title := "T".toList, description := "d".toList, imageUrl := []
            isError := true, errorMessage := some noImagesMsg
            retryPayload := some { images := none, prompt := "P".toList
                                   aspectRatio := some "1:1".toList } })
    ∧ ("P".toList : List Char) ≠ "P".toList ++ styleSep ++ "T".toList := by
  refine ⟨by decide, by decide, by decide⟩

/-- C4 (amended): for every planned variation whose modifiedPrompt is
empty, the render-time prompt and the retry-payload prompt are the user
prompt combined with the title in the edit path, but the bare user
prompt, without the title, in the new-image path. -/
theorem fallback_prompts_per_path (userPrompt aspectRatio : List Char)
    (images : List Image) (key : List Char) (net : GenRequest → GenResponse)
    (netImages : ImagesRequest → ImagesResponse) (v : Variation)
    (h : v.modifiedPrompt = []) :
    editPromptForGeneration userPrompt v = userPrompt ++ styleSep ++ v.title
    ∧ newImagePrompt userPrompt v = userPrompt
    ∧ (renderNewVariation userPrompt aspectRatio (some key) netImages v).2
        = newImagesRequest userPrompt aspectRatio
    ∧ ((renderNewVariation userPrompt aspectRatio (some key) netImages v).1.isError = true →
        (renderNewVariation userPrompt aspectRatio (some key) netImages v).1.retryPayload
          = some { images := none, prompt := userPrompt, aspectRatio := some aspectRatio })
    ∧ (renderEditVariation images userPrompt (some key) net v).2
        = (editImageInternal images (userPrompt ++ styleSep ++ v.title) (some key) net).2
    ∧ ((renderEditVariation images userPrompt (some key) net v).1.isError = true →
        (renderEditVariation images userPrompt (some key) net v).1.retryPayload
          = some { images := some images, prompt := userPrompt ++ styleSep ++ v.title
                   aspectRatio := none }) := by
  have hedit : editPromptForGeneration userPrompt v = userPrompt ++ styleSep ++ v.title := by
    unfold editPromptForGeneration
    rw [h]
    simp [trimJs, trimEndJs]
  have hnew : newImagePrompt userPrompt v = userPrompt := by
    unfold newImagePrompt
    rw [h]
    simp
  refine ⟨hedit, hnew, ?_, ?_, ?_, ?_⟩
  · rw [renderNewVariation_snd, hnew]
  · simp only [renderNewVariation]
    cases hres : retryNewImageGeneration (newImagePrompt userPrompt v) aspectRatio
        (some key) netImages with
    | ok b =>
      intro hfalse
      simp at hfalse
    | error e =>
      intro _
      simp [hnew]
  · simp only [renderEditVariation, hedit]
  · simp only [renderEditVariation]
    cases hres : (editImageInternal images (editPromptForGeneration userPrompt v)
        (some key) net).1 with
    | ok b =>
      intro hfalse
      simp at hfalse
    | error e =>
      intro _
      simp [hedit]

/-- C4 witness: a concrete empty-prompt variation exercises both fallback
forms, including the retry payloads when the renders fail. -/
theorem fallback_prompts_per_path_witness :
    vEmptyPrompt.modifiedPrompt = []
    ∧ editPromptForGeneration "P".toList vEmptyPrompt
        = "P".toList ++ styleSep ++ vEmptyPrompt.title
    ∧ newImagePrompt "P".toList vEmptyPrompt = "P".toList
    ∧ (renderNewVariation "P".toList "1:1".toList (some "k".toList) netImagesFail
        vEmptyPrompt).1.retryPayload
      = some { images := none, prompt := "P".toList, aspectRatio := some "1:1".toList }
    ∧ (renderEditVariation [testImage] "P".toList (some "k".toList) testNetC1
        vEmptyPrompt).2
      = (editImageInternal [testImage] ("P".toList ++ styleSep ++ vEmptyPrompt.title)
          (some "k".toList) testNetC1).2 := by
  have h := fallback_prompts_per_path "P".toList "1:1".toList [testImage] "k".toList
    testNetC1 netImagesFail vEmptyPrompt rfl
  exact ⟨rfl, h.1, h.2.1, h.2.2.2.1 (by decide), h.2.2.2.2.1⟩

/-! ## Claim C5 -/

def planOne : PlanResult :=
  { textResponse := "ok".toList, variations := some [vA], followUpSuggestions := [] }

def parseOne : List Char → Except (List Char) PlanResult := fun _ => .ok planOne

/-- A content oracle that serves the plan text for plan calls and answers
every render call with an empty candidate list. -/
def testNetEditFail : GenRequest → GenResponse := fun req =>
  match req.config with
  | GenConfig.imageOnly => noCandResponse
  | _ => { candidates := none, text := planRespText, blockReason := none }

/-- C5 counterexample: an error-state variation emitted by the edit
generator whose retry payload carries the images and the prompt but no
aspect ratio — the claim asserts every error-state variation payload
contains the aspect ratio. -/
theorem edit_retry_payload_lacks_aspect_ratio :
    (generateImageEdits [testImage] "P".toList false "1:1".toList "en".toList
        (some "k".toList) testNetEditFail parseOne).events
      = [GeneratorYield.planEv planOne none, GeneratorYield.progress remixingMsg,
         GeneratorYield.variation
           { title := "A".toList, description := "dA".toList, imageUrl := []
             isError := true, errorMessage := some noCandidatesMsg
             retryPayload := some { images := some [testImage], prompt := "pA".toList
                                    aspectRatio := none } }] := by decide

/-- C5 (amended): every error-state variation carries a retry payload
holding the inputs its own retry path needs: always the render prompt;
the source images (and no aspect ratio, which the edit retry does not
take) in the edit path; the aspect ratio (and no images) in the
new-image path. -/
theorem retry_payload_contents (images : List Image)
    (userPrompt aspectRatio key : List Char) (net : GenRequest → GenResponse)
    (netImages : ImagesRequest → ImagesResponse) (v : Variation) :
    (∀ p, (renderEditVariation images userPrompt (some key) net v).1.retryPayload = some p →
      p.images = some images ∧ p.prompt = editPromptForGeneration userPrompt v
        ∧ p.aspectRatio = none)
    ∧ (∀ p, (renderNewVariation userPrompt aspectRatio (some key) netImages v).1.retryPayload
          = some p →
      p.images = none ∧ p.prompt = newImagePrompt userPrompt v
        ∧ p.aspectRatio = some aspectRatio) := by
  constructor
  · intro p hp
    simp only [renderEditVariation] at hp
    cases hres : (editImageInternal images (editPromptForGeneration userPrompt v)
        (some key) net).1 with
    | ok b =>
      rw [hres] at hp
      simp at hp
    | error e =>
      rw [hres] at hp
      simp only [Option.some.injEq] at hp
      subst hp
      exact ⟨rfl, rfl, rfl⟩
  · intro p hp
    simp only [renderNewVariation] at hp
    cases hres : retryNewImageGeneration (newImagePrompt userPrompt v) aspectRatio
        (some key) netImages with
    | ok b =>
      rw [hres] at hp
      simp at hp
    | error e =>
      rw [hres] at hp
      simp only [Option.some.injEq] at hp
      subst hp
      exact ⟨rfl, rfl, rfl⟩

/-- C5 witness: concrete failing renders in both paths produce payloads
with exactly the per-path contents. -/
theorem retry_payload_contents_witness :
    (renderEditVariation [testImage] "P".toList (some "k".toList) testNetEditFail
        vA).1.retryPayload
      = some { images := some [testImage], prompt := "pA".toList, aspectRatio := none }
    ∧ ({ images := some [testImage], prompt := "pA".toList
         aspectRatio := none } : RetryPayload).images = some [testImage]
    ∧ ({ images := some [testImage], prompt := "pA".toList
         aspectRatio := none } : RetryPayload).prompt = editPromptForGeneration "P".toList vA
    ∧ ({ images := some [testImage], prompt := "pA".toList
         aspectRatio := none } : RetryPayload).aspectRatio = none
    ∧ (renderNewVariation "P".toList "1:1".toList (some "k".toList) netImagesFail
        vA).1.retryPayload
      = some { images := none, prompt := "pA".toList, aspectRatio := some "1:1".toList }
    ∧ ({ images := none, prompt := "pA".toList
         aspectRatio := some "1:1".toList } : RetryPayload).images = none
    ∧ ({ images := none, prompt := "pA".toList
         aspectRatio := some "1:1".toList } : RetryPayload).prompt
        = newImagePrompt "P".toList vA
    ∧ ({ images := none, prompt := "pA".toList
         aspectRatio := some "1:1".toList } : RetryPayload).aspectRatio
        = some "1:1".toList := by
  have h := retry_payload_contents [testImage] "P".toList "1:1".toList "k".toList
    testNetEditFail netImagesFail vA
  have hpE : (renderEditVariation [testImage] "P".toList (some "k".toList) testNetEditFail
      vA).1.retryPayload
      = some { images := some [testImage], prompt := "pA".toList, aspectRatio := none } := by
    decide
  have hpN : (renderNewVariation "P".toList "1:1".toList (some "k".toList) netImagesFail
      vA).1.retryPayload
      = some { images := none, prompt := "pA".toList, aspectRatio := some "1:1".toList } := by
    decide
  exact ⟨hpE, (h.1 _ hpE).1, (h.1 _ hpE).2.1, (h.1 _ hpE).2.2,
    hpN, (h.2 _ hpN).1, (h.2 _ hpN).2.1, (h.2 _ hpN).2.2⟩

/-! ## Claim C9 -/

def segRespNoCand : GenResponse :=
  { candidates := some [], text := planRespText, blockReason := none }

def testNetSeg : GenRequest → GenResponse := fun _ => segRespNoCand

def detParseEmpty : List Char → Except (List Char) DetectionResult := fun _ =>
  .ok { objects := some [] }

/-- A response whose single candidate carries only text parts (no image
data). -/
def noImagePartsResponse : GenResponse :=
  { candidates := some [{ contentParts := some [{ inlineData := none
                                                  text := some "nope".toList }]
                          groundingMetadata := none }]
    text := [], blockReason := none }

def testNetNoImage : GenRequest → GenResponse := fun _ => noImagePartsResponse

/-- C9 counterexample: segmentObjectsInImage returns normally on a
response whose candidate list is empty (it never inspects candidates or
parts) — the claim asserts all three auxiliary capabilities fail fatally
on empty candidates. -/
theorem segmentation_ignores_candidates :
    (testNetSeg (segmentRequest "I".toList "image/png".toList)).candidates = some []
    ∧ segmentObjectsInImage "I".toList "image/png".toList (some "k".toList) testNetSeg
        detParseEmpty = .ok [] := ⟨rfl, by decide⟩

/-- C9 (amended): editImageWithMask and applyRepositionEdit fail fatally
when the response has no candidates, and when the returned parts contain
no image data, matching the variation-renderer idioms;
segmentObjectsInImage performs no such checks: its result depends only on
the response text. -/
theorem auxiliary_failure_idioms (b m p msk ib im gp key : List Char)
    (net net2 : GenRequest → GenResponse)
    (detParse : List Char → Except (List Char) DetectionResult) :
    ((net (maskEditRequest b m p msk)).candidates = none
       ∨ (net (maskEditRequest b m p msk)).candidates = some [] →
      editImageWithMask b m p msk (some key) net = .error maskNoCandMsg)
    ∧ (∀ c cs parts, (net (maskEditRequest b m p msk)).candidates = some (c :: cs) →
        c.contentParts = some parts → collectImages parts = [] →
        editImageWithMask b m p msk (some key) net = .error maskNoImageMsg)
    ∧ ((net (repositionRequest ib im gp)).candidates = none
       ∨ (net (repositionRequest ib im gp)).candidates = some [] →
      applyRepositionEdit ib im gp (some key) net = .error repoNoCandMsg)
    ∧ (∀ c cs parts, (net (repositionRequest ib im gp)).candidates = some (c :: cs) →
        c.contentParts = some parts → collectImages parts = [] →
        applyRepositionEdit ib im gp (some key) net = .error repoNoImageMsg)
    ∧ ((net2 (segmentRequest b m)).text = (net (segmentRequest b m)).text →
        segmentObjectsInImage b m (some key) net2 detParse
          = segmentObjectsInImage b m (some key) net detParse) := by
  refine ⟨?_, ?_, ?_, ?_, ?_⟩
  · intro h
    unfold editImageWithMask
    simp only [getAiClient]
    rcases h with h | h <;> rw [h]
  · intro c cs parts hc hp himg
    unfold editImageWithMask
    simp only [getAiClient]
    rw [hc]
    dsimp only
    rw [hp]
    dsimp only
    rw [himg]
    simp
  · intro h
    unfold applyRepositionEdit
    simp only [getAiClient]
    rcases h with h | h <;> rw [h]
  · intro c cs parts hc hp himg
    unfold applyRepositionEdit
    simp only [getAiClient]
    rw [hc]
    dsimp only
    rw [hp]
    dsimp only
    rw [himg]
    simp
  · intro ht
    unfold segmentObjectsInImage
    simp only [getAiClient]
    rw [ht]

/-- C9 witness: concrete no-candidate and text-only-parts responses make
the two image capabilities fail with their idiom messages, while the
segmentation result coincides for two oracles agreeing on the response
text only. -/
theorem auxiliary_failure_idioms_witness :
    (testNetEditFail (maskEditRequest "I".toList "image/png".toList "P".toList
        "M".toList)).candidates = some []
    ∧ editImageWithMask "I".toList "image/png".toList "P".toList "M".toList
        (some "k".toList) testNetEditFail = .error maskNoCandMsg
    ∧ editImageWithMask "I".toList "image/png".toList "P".toList "M".toList
        (some "k".toList) testNetNoImage = .error maskNoImageMsg
    ∧ (testNetEditFail (repositionRequest "I".toList "image/png".toList
        "G".toList)).candidates = some []
    ∧ applyRepositionEdit "I".toList "image/png".toList "G".toList
        (some "k".toList) testNetEditFail = .error repoNoCandMsg
    ∧ applyRepositionEdit "I".toList "image/png".toList "G".toList
        (some "k".toList) testNetNoImage = .error repoNoImageMsg
    ∧ (testNetSeg (segmentRequest "I".toList "image/png".toList)).text
        = (testNetEditFail (segmentRequest "I".toList "image/png".toList)).text
    ∧ segmentObjectsInImage "I".toList "image/png".toList (some "k".toList) testNetSeg
        detParseEmpty
      = segmentObjectsInImage "I".toList "image/png".toList (some "k".toList) testNetEditFail
        detParseEmpty := by
  have h1 := auxiliary_failure_idioms "I".toList "image/png".toList "P".toList "M".toList
    "I".toList "image/png".toList "G".toList "k".toList testNetEditFail testNetSeg
    detParseEmpty
  have h2 := auxiliary_failure_idioms "I".toList "image/png".toList "P".toList "M".toList
    "I".toList "image/png".toList "G".toList "k".toList testNetNoImage testNetSeg
    detParseEmpty
  refine ⟨rfl, h1.1 (Or.inr rfl), ?_, rfl, h1.2.2.1 (Or.inr rfl), ?_, rfl, ?_⟩
  · exact h2.2.1 _ [] _ rfl rfl rfl
  · exact h2.2.2.2.1 _ [] _ rfl rfl rfl
  · exact h1.2.2.2.2 rfl
